import Mathlib

/-
Verification of the Fermioniq server helper
(`FermioniqServerHelper`, the CUDA-Q `ServerHelper` implementation for the
Fermioniq backend) against its natural-language specification.

The embedding follows the current revision of `FermioniqServerHelper.cpp`
(the one that defines `refreshTokens`, the "finished"/"status_code" logic in
`jobIsDone`, and `name() = "fermioniq"`); an earlier draft of the same file
(with stubbed `jobIsDone`/`extractJobId`) exists in the repository history.

Server messages (`nlohmann::json`) are modelled by an inductive `Json` type;
C++ exceptions are modelled by `Except FermiErr` results, and for member
functions that mutate fields before possibly throwing (`refreshTokens`,
`initialize`) by a `State × Option FermiErr` result so that mutations applied
before the throw are visible, exactly as they are on the surviving C++ object.
-/

namespace Fermioniq

/-- Model of `nlohmann::json` values: null, booleans, integral numbers,
strings, arrays and objects (an object is a list of key/value fields). -/
inductive Json where
  | null
  | bool (b : Bool)
  | num (n : Int)
  | str (s : String)
  | arr (elems : List Json)
  | obj (fields : List (String × Json))

/-- Errors thrown by the helper. `jsonOutOfRange` models
`nlohmann::json::at` on a missing key, `jsonTypeError` models a
`nlohmann::json` type-conversion failure, `configKeyAbsent` models
`std::map::at` on a missing backend-configuration key, `envVarNotSet` models
the `std::runtime_error` thrown by `getEnvVar` for a required variable, and
`jobFailed` models the `std::runtime_error` thrown by `jobIsDone`. -/
inductive FermiErr where
  | jsonOutOfRange (key : String)
  | jsonTypeError
  | configKeyAbsent (key : String)
  | envVarNotSet (key : String)
  | jobFailed (statusCode : Int)
deriving DecidableEq, Repr

/-- The message text carried by each thrown error, mirroring the
`std::runtime_error` message strings built in the source. -/
def errMessage : FermiErr → String
  | FermiErr.jsonOutOfRange key => "key not found: " ++ key
  | FermiErr.jsonTypeError => "type error"
  | FermiErr.configKeyAbsent key => "map::at: key not found: " ++ key
  | FermiErr.envVarNotSet key =>
      "The " ++ key ++ " environment variable is not set but is required."
  | FermiErr.jobFailed code =>
      "Job failed to execute. Status code = " ++ toString code

/-- First field of an object's field list bound to a given key. -/
def findField : List (String × Json) → String → Option Json
  | [], _ => none
  | (k, v) :: rest, key => if k = key then some v else findField rest key

/-- Model of `nlohmann::json::at(key)`: returns the field's value, throws
`out_of_range` when the key is absent, and a type error when the value is
not an object. -/
def Json.atField : Json → String → Except FermiErr Json
  | Json.obj fields, key =>
      match findField fields key with
      | some v => Except.ok v
      | none => Except.error (FermiErr.jsonOutOfRange key)
  | _, _ => Except.error FermiErr.jsonTypeError

/-- Model of non-const `nlohmann::json::operator[](key)`: on an object (or
null, which is implicitly converted to an object) a missing key yields a
null value rather than a throw; on any other value it is a type error. -/
def Json.indexField : Json → String → Except FermiErr Json
  | Json.obj fields, key => Except.ok ((findField fields key).getD Json.null)
  | Json.null, _ => Except.ok Json.null
  | _, _ => Except.error FermiErr.jsonTypeError

/-- Model of `get<std::string>()` / implicit conversion to `std::string`:
succeeds exactly on a string value. -/
def Json.getStr : Json → Except FermiErr String
  | Json.str s => Except.ok s
  | _ => Except.error FermiErr.jsonTypeError

/-- Two's-complement wrap of an integer to a 32-bit `int`: the effect of
`static_cast<int>` on the stored 64-bit value (2147483648 = 2^31,
4294967296 = 2^32). -/
def wrapInt32 (n : Int) : Int := (n + 2147483648) % 4294967296 - 2147483648

/-- Model of `get<int>()` / implicit conversion to `int`: succeeds exactly
on a number value (the parsed 64-bit integer); nlohmann's arithmetic
conversion `static_cast`s that value to `int` with no range check, so the
result wraps modulo 2^32. -/
def Json.getInt : Json → Except FermiErr Int
  | Json.num n => Except.ok (wrapInt32 n)
  | _ => Except.error FermiErr.jsonTypeError

/-- A string-to-string map (`std::map<std::string, std::string>`), modelled
as an association list; `BackendConfig` and `RestHeaders` are both of this
shape. -/
abbrev StrMap := List (String × String)

/-- Lookup in a string map (`find` returning the mapped value). -/
def mapFind : StrMap → String → Option String
  | [], _ => none
  | (k, v) :: rest, key => if k = key then some v else mapFind rest key

/-- Model of `std::map::operator[]` assignment: overwrite the key's binding
if present, otherwise append a new binding. -/
def mapSet : StrMap → String → String → StrMap
  | [], key, val => [(key, val)]
  | (k, v) :: rest, key, val =>
      if k = key then (k, val) :: rest else (k, v) :: mapSet rest key val

/-- Model of `std::map::at`: the mapped value, or a thrown `out_of_range`. -/
def mapAt (m : StrMap) (key : String) : Except FermiErr String :=
  match mapFind m key with
  | some v => Except.ok v
  | none => Except.error (FermiErr.configKeyAbsent key)

/-  Compiled-in constants of FermioniqServerHelper. -/

def POLLING_INTERVAL_IN_SECONDS : Nat := 1

def DEFAULT_URL : String := "https://fermioniq-api-fapp-prod.azurewebsites.net"

def DEFAULT_API_KEY : String :=
  "gCUVmJOKVCdPKRYpgk7nNWM_kTAsZfPeYTbte2sNuKtXAzFuYdj9ag=="

def CFG_URL_KEY : String := "base_url"
def CFG_ACCESS_TOKEN_ID_KEY : String := "access_token_id"
def CFG_ACCESS_TOKEN_SECRET_KEY : String := "access_token_secret"
def CFG_API_KEY_KEY : String := "api_key"
def CFG_USER_AGENT_KEY : String := "user_agent"
def CFG_TOKEN_KEY : String := "token"
def CFG_REMOTE_CONFIG_KEY : String := "remote_config"
def CFG_NOISE_MODEL_KEY : String := "noise_model"

/-- The string returned by `FermioniqServerHelper::name()`. -/
def helperName : String := "fermioniq"

/-- The registry key under which the helper is registered:
`CUDAQ_REGISTER_TYPE(cudaq::ServerHelper, cudaq::FermioniqServerHelper,
fermioniq)` stringizes its third argument. -/
def registryKey : String := "fermioniq"

/-- Model of the external `cudaq::getVersion()` (out of scope for all
claims; only ever concatenated into the user-agent string). -/
def cudaqVersion : String := "0.0.0"

/-- The mutable member state of a `FermioniqServerHelper` instance:
`backendConfig` (inherited from `ServerHelper`), the `token` and `userId`
members. Strings default-construct empty. -/
structure HelperState where
  backendConfig : StrMap
  token : String
  userId : String
deriving DecidableEq, Repr

/-- A compiled kernel execution: kernel name plus its serialized circuit
code (`cudaq::KernelExecution`); consumed opaquely by `createJob`. -/
structure KernelExecution where
  name : String
  code : String
deriving DecidableEq, Repr

/-- The normalized measurement histogram (`cudaq::sample_result`), reduced
to the bitstring-to-count mapping that the claims mention. -/
structure SampleResult where
  counts : List (String × Nat)
deriving DecidableEq, Repr

/-- A default-constructed `cudaq::sample_result()`: an empty histogram. -/
def SampleResult.empty : SampleResult := ⟨[]⟩

/-- Embedding of `FermioniqServerHelper::getEnvVar`: reads the environment
(modelled as a string map), returning the variable's value, the default for
an absent optional variable, and throwing for an absent required one. -/
def getEnvVar (env : StrMap) (key defaultVal : String) (isRequired : Bool) :
    Except FermiErr String :=
  match mapFind env key with
  | none =>
      if isRequired then Except.error (FermiErr.envVarNotSet key)
      else Except.ok defaultVal
  | some v => Except.ok v

/-- Embedding of `FermioniqServerHelper::getValueOrDefault`. -/
def getValueOrDefault (config : StrMap) (key defaultValue : String) : String :=
  (mapFind config key).getD defaultValue

/-- Embedding of `FermioniqServerHelper::keyExists` (a key lookup in the
instance's `backendConfig`). -/
def keyExists (st : HelperState) (key : String) : Bool :=
  (mapFind st.backendConfig key).isSome

/-- Embedding of `FermioniqServerHelper::getHeaders`: `x-functions-key`
when the configured api key exists and is non-empty, `Authorization` when
the `token` member is non-empty, then `Content-Type` and `User-Agent`
(the latter via `backendConfig.at`, which can throw). -/
def getHeaders (st : HelperState) : Except FermiErr StrMap :=
  let headers0 : StrMap := []
  let headers1 :=
    match mapFind st.backendConfig CFG_API_KEY_KEY with
    | some v => if v = "" then headers0 else mapSet headers0 "x-functions-key" v
    | none => headers0
  let headers2 :=
    if st.token = "" then headers1 else mapSet headers1 "Authorization" st.token
  let headers3 := mapSet headers2 "Content-Type" "application/json"
  match mapAt st.backendConfig CFG_USER_AGENT_KEY with
  | Except.error e => Except.error e
  | Except.ok ua => Except.ok (mapSet headers3 "User-Agent" ua)

/-- Embedding of `FermioniqServerHelper::jobIsDone`. The source reads
`status` and then `status_code` through `json::at` (both reads happen
before any branch), then: "finished" with code 0 is done; "finished" with a
nonzero code throws; any other status keeps polling. -/
def jobIsDone (getJobResponse : Json) : Except FermiErr Bool :=
  match getJobResponse.atField "status" with
  | Except.error e => Except.error e
  | Except.ok sv =>
    match sv.getStr with
    | Except.error e => Except.error e
    | Except.ok status =>
      match getJobResponse.atField "status_code" with
      | Except.error e => Except.error e
      | Except.ok cv =>
        match cv.getInt with
        | Except.error e => Except.error e
        | Except.ok statusCode =>
          if status = "finished" then
            if statusCode = 0 then Except.ok true
            else Except.error (FermiErr.jobFailed statusCode)
          else Except.ok false

/-- Embedding of `FermioniqServerHelper::extractJobId`: returns
`postResponse.at("id")` converted to a string. -/
def extractJobId (postResponse : Json) : Except FermiErr String :=
  match postResponse.atField "id" with
  | Except.error e => Except.error e
  | Except.ok v => v.getStr

/-- Embedding of the `ServerMessage` overload of
`FermioniqServerHelper::constructGetJobPath`: the configured base URL
followed by "/api/jobs/"; the response argument is unused (the source
carries a "todo: Extract job-id from postResponse" comment). -/
def constructGetJobPathFromResponse (st : HelperState) (_postResponse : Json) :
    Except FermiErr String :=
  match mapAt st.backendConfig CFG_URL_KEY with
  | Except.error e => Except.error e
  | Except.ok base => Except.ok (base ++ "/api/jobs/")

/-- Embedding of the job-id overload of
`FermioniqServerHelper::constructGetJobPath`: base URL, "/api/jobs/", then
the job id. -/
def constructGetJobPathFromId (st : HelperState) (jobId : String) :
    Except FermiErr String :=
  match mapAt st.backendConfig CFG_URL_KEY with
  | Except.error e => Except.error e
  | Except.ok base => Except.ok (base ++ "/api/jobs/" ++ jobId)

/-- Embedding of `FermioniqServerHelper::processResults`: the body ignores
both arguments and returns a default-constructed `cudaq::sample_result()`. -/
def processResults (_postJobResponse : Json) (_jobId : String) : SampleResult :=
  SampleResult.empty

/-- The `circuits` JSON array built by `createJob`: for each circuit it
pushes the marker string "__qir_base_compressed__" and then the circuit's
code. -/
def circuitEntries : List KernelExecution → List Json
  | [] => []
  | c :: rest => Json.str "__qir_base_compressed__" :: Json.str c.code :: circuitEntries rest

/-- The single job object built by `createJob`: optional `remote_config`
copied from the backend configuration, the `circuit`, `config` and
`noise_model` arrays (one entry per circuit for the latter two),
`verbosity_level` 1 and the hard-coded `project_id` constant (the source
marks it "todo: remove. CudaQ dev"). -/
def jobBody (st : HelperState) (circuitCodes : List KernelExecution) : Json :=
  let remoteFields : List (String × Json) :=
    match mapFind st.backendConfig CFG_REMOTE_CONFIG_KEY with
    | some rc => [("remote_config", Json.str rc)]
    | none => []
  Json.obj (remoteFields ++
    [("circuit", Json.arr (circuitEntries circuitCodes)),
     ("config", Json.arr (circuitCodes.map (fun _ => Json.obj []))),
     ("noise_model", Json.arr (circuitCodes.map (fun _ => Json.null))),
     ("verbosity_level", Json.num 1),
     ("project_id", Json.str "943977db-7264-4b66-addf-c9d6085d9d8f")])

/-- Embedding of `FermioniqServerHelper::createJob`: one payload array
holding the single job object, the job path `base_url` + "/api/jobs", and
the current headers. -/
def createJob (st : HelperState) (circuitCodes : List KernelExecution) :
    Except FermiErr (String × StrMap × Json) :=
  let payload := Json.arr [jobBody st circuitCodes]
  match mapAt st.backendConfig CFG_URL_KEY with
  | Except.error e => Except.error e
  | Except.ok url =>
    match getHeaders st with
    | Except.error e => Except.error e
    | Except.ok headers => Except.ok (url ++ "/api/jobs", headers, payload)

/-- Embedding of `FermioniqServerHelper::nextResultPollingInterval`
(in seconds; the response argument is unused). -/
def nextResultPollingInterval (_postResponse : Json) : Nat :=
  POLLING_INTERVAL_IN_SECONDS

/-- Model of the composite expression `j[key].get<std::string>()` used on
the login response: `operator[]` lookup followed by string conversion. -/
def readStrField (j : Json) (key : String) : Except FermiErr String :=
  match j.indexField key with
  | Except.error e => Except.error e
  | Except.ok v => v.getStr

/-- Embedding of `FermioniqServerHelper::refreshTokens`. The login
round-trip's response is a parameter (the transport is external). The C++
body: build headers (`getHeaders`), read the access-token id and secret
from `backendConfig.at`, post to /api/login, then sequentially
`token = response["jwt_token"]`, `userId = response["user_id"]`, and read
`response["expiration_date"]` (for logging). An exception leaves the
member mutations already applied in place, so the model returns the state
as mutated so far together with the error, if any. The function-local
`std::mutex` has no effect on this sequential semantics (see
`RefreshStep` for the concurrent picture). -/
def refreshTokens (st : HelperState) (loginResponse : Json) :
    HelperState × Option FermiErr :=
  match getHeaders st with
  | Except.error e => (st, some e)
  | Except.ok _headers =>
  match mapAt st.backendConfig CFG_ACCESS_TOKEN_ID_KEY with
  | Except.error e => (st, some e)
  | Except.ok _tid =>
  match mapAt st.backendConfig CFG_ACCESS_TOKEN_SECRET_KEY with
  | Except.error e => (st, some e)
  | Except.ok _sec =>
  match readStrField loginResponse "jwt_token" with
  | Except.error e => (st, some e)
  | Except.ok newToken =>
  let st1 : HelperState := { st with token := newToken }
  match readStrField loginResponse "user_id" with
  | Except.error e => (st1, some e)
  | Except.ok newUserId =>
  let st2 : HelperState := { st1 with userId := newUserId }
  match readStrField loginResponse "expiration_date" with
  | Except.error e => (st2, some e)
  | Except.ok _expDate => (st2, none)

/-- Embedding of `FermioniqServerHelper::initialize`: starting from a
default-constructed instance, store `base_url` and `api_key` (falling back
to the compiled-in defaults), resolve the two required environment
variables (throwing when absent, with the mutations so far kept), store the
user agent, copy `remote_config` and `noise_model` from the caller's
configuration when present, and finally call `refreshTokens true` (whose
login response is the external parameter). -/
def initializeBackend (config env : StrMap) (loginResponse : Json) :
    HelperState × Option FermiErr :=
  let st0 : HelperState := { backendConfig := [], token := "", userId := "" }
  let bc1 := mapSet st0.backendConfig CFG_URL_KEY
    (getValueOrDefault config "base_url" DEFAULT_URL)
  let bc2 := mapSet bc1 CFG_API_KEY_KEY
    (getValueOrDefault config "api_key" DEFAULT_API_KEY)
  match getEnvVar env "FERMIONIQ_ACCESS_TOKEN_ID" "" true with
  | Except.error e => ({ st0 with backendConfig := bc2 }, some e)
  | Except.ok tokenId =>
    let bc3 := mapSet bc2 CFG_ACCESS_TOKEN_ID_KEY tokenId
    match getEnvVar env "FERMIONIQ_ACCESS_TOKEN_SECRET" "" true with
    | Except.error e => ({ st0 with backendConfig := bc3 }, some e)
    | Except.ok secret =>
      let bc4 := mapSet bc3 CFG_ACCESS_TOKEN_SECRET_KEY secret
      let bc5 := mapSet bc4 CFG_USER_AGENT_KEY ("cudaq/" ++ cudaqVersion)
      let bc6 :=
        match mapFind config "remote_config" with
        | some v => mapSet bc5 CFG_REMOTE_CONFIG_KEY v
        | none => bc5
      let bc7 :=
        match mapFind config "noise_model" with
        | some v => mapSet bc6 CFG_NOISE_MODEL_KEY v
        | none => bc6
      refreshTokens { st0 with backendConfig := bc7 } loginResponse

/-- State of two concurrent `refreshTokens(true)` invocations on one helper
instance. `refreshTokens` declares `std::mutex m` as a local variable and
locks it with a `std::lock_guard`; since every invocation constructs its own
fresh mutex, the acquisition never contends with the other invocation, so it
is always enabled. Each invocation issues exactly one login post
(`client.post(base, "/api/login", ...)`) while holding its own lock.
Program counters: 0 = before the lock, 1 = own lock held, login post not yet
issued, 2 = own lock held, login post issued, 3 = returned (lock released at
scope exit). `loginPosts` counts login requests issued so far. -/
structure RefreshSys where
  pc1 : Nat
  pc2 : Nat
  loginPosts : Nat
deriving DecidableEq, Repr

/-- Interleaving semantics of the two invocations. Acquiring the
function-local mutex (`lock1`/`lock2`) is enabled whenever the thread is
before the lock, regardless of the other thread's position — the mutex is
freshly constructed inside the call, so it is never held by anyone else. -/
inductive RefreshStep : RefreshSys → RefreshSys → Prop where
  | lock1 (s : RefreshSys) (h : s.pc1 = 0) : RefreshStep s { s with pc1 := 1 }
  | post1 (s : RefreshSys) (h : s.pc1 = 1) :
      RefreshStep s { s with pc1 := 2, loginPosts := s.loginPosts + 1 }
  | ret1 (s : RefreshSys) (h : s.pc1 = 2) : RefreshStep s { s with pc1 := 3 }
  | lock2 (s : RefreshSys) (h : s.pc2 = 0) : RefreshStep s { s with pc2 := 1 }
  | post2 (s : RefreshSys) (h : s.pc2 = 1) :
      RefreshStep s { s with pc2 := 2, loginPosts := s.loginPosts + 1 }
  | ret2 (s : RefreshSys) (h : s.pc2 = 2) : RefreshStep s { s with pc2 := 3 }

/-- Both invocations start before their lock, no login posts issued. -/
def refreshInit : RefreshSys := { pc1 := 0, pc2 := 0, loginPosts := 0 }

/-- A thread holds its (own, function-local) lock at program counters 1
and 2 — the region the `std::lock_guard` covers. -/
def holdsLock (pc : Nat) : Bool := pc = 1 || pc = 2

/-- Accessor for a field of the single job object inside a `createJob`
result's payload array (used to inspect what would be sent to the wire). -/
def firstJobField (r : Except FermiErr (String × StrMap × Json)) (key : String) :
    Except FermiErr Json :=
  match r with
  | Except.ok (_, _, Json.arr (j :: _)) => j.atField key
  | Except.ok _ => Except.error FermiErr.jsonTypeError
  | Except.error e => Except.error e

/-  Concrete inputs used by the claim theorems. -/

/-- A status response that is still running and carries no "status_code"
field. -/
def respRunningNoCode : Json := Json.obj [("status", Json.str "running")]

/-- A finished status response with status code 0. -/
def respFinishedOk : Json :=
  Json.obj [("status", Json.str "finished"), ("status_code", Json.num 0)]

/-- A finished status response whose status code 4294967296 = 2^32
truncates to 0 under the C++ `int` conversion. -/
def respFinishedWrap : Json :=
  Json.obj [("status", Json.str "finished"), ("status_code", Json.num 4294967296)]

/-- A finished status response with status code 0 and a result payload, as
accepted by `jobIsDone`. -/
def respFinishedWithOutput : Json :=
  Json.obj [("status", Json.str "finished"), ("status_code", Json.num 0),
    ("output", Json.obj [("00", Json.num 12), ("11", Json.num 88)])]

/-- A submission response carrying the job identifier "job-1". -/
def respWithId : Json := Json.obj [("id", Json.str "job-1")]

/-- A login response whose "jwt_token" parses but which lacks "user_id". -/
def respNoUserId : Json := Json.obj [("jwt_token", Json.str "new-token")]

/-- A well-formed login response. -/
def respLoginOk : Json :=
  Json.obj [("jwt_token", Json.str "tok-1"), ("user_id", Json.str "user-1"),
    ("expiration_date", Json.str "2026-01-01")]

/-- A helper state as produced by initialization, holding an old token. -/
def tokenState : HelperState :=
  { backendConfig :=
      [("base_url", "https://h"), ("api_key", "k"),
       ("access_token_id", "tid"), ("access_token_secret", "sec"),
       ("user_agent", "cudaq/0.0.0")],
    token := "old-token", userId := "old-user" }

/-- A helper state with just a base URL configured. -/
def pathState : HelperState :=
  { backendConfig := [("base_url", "https://h"), ("user_agent", "cudaq/0.0.0")],
    token := "", userId := "" }

/-- A helper state whose backend configuration also carries a
"project_id" entry, to probe whether `createJob` reads it. -/
def projectState : HelperState :=
  { backendConfig :=
      [("base_url", "https://h"), ("api_key", "k"),
       ("user_agent", "cudaq/0.0.0"), ("project_id", "my-project")],
    token := "", userId := "" }

/-- Two concrete circuit executions. -/
def exampleCircuits : List KernelExecution :=
  [{ name := "k1", code := "CODE1" }, { name := "k2", code := "CODE2" }]

/-- An environment holding both required Fermioniq variables. -/
def envBoth : StrMap :=
  [("FERMIONIQ_ACCESS_TOKEN_ID", "tid"), ("FERMIONIQ_ACCESS_TOKEN_SECRET", "sec")]

/-  Shared helper lemmas. -/

theorem circuitEntries_length (ccs : List KernelExecution) :
    (circuitEntries ccs).length = 2 * ccs.length := by
  induction ccs with
  | nil => rfl
  | cons c rest ih =>
    simp only [circuitEntries, List.length_cons, ih]
    omega

theorem circuitEntries_mem (ccs : List KernelExecution) (c : KernelExecution)
    (hc : c ∈ ccs) : Json.str c.code ∈ circuitEntries ccs := by
  induction ccs with
  | nil => cases hc
  | cons d rest ih =>
    rcases List.mem_cons.mp hc with h | h
    · subst h
      simp [circuitEntries]
    · simp only [circuitEntries, List.mem_cons]
      exact Or.inr (Or.inr (ih h))

theorem refreshTokens_keeps_backendConfig (st : HelperState) (resp : Json) :
    (refreshTokens st resp).1.backendConfig = st.backendConfig := by
  unfold refreshTokens
  repeat' split
  all_goals rfl

/-  C1 -/

/-- C1 counterexample: the claim says every response whose "status" is not
"finished" makes `jobIsDone` return false, but the source reads the
"status_code" field before branching, so the running-status response that
lacks "status_code" makes `jobIsDone` throw a key-not-found error instead
of returning false. -/
theorem jobIsDone_missing_code_not_false :
    jobIsDone respRunningNoCode =
      Except.error (FermiErr.jsonOutOfRange "status_code") ∧
    jobIsDone respRunningNoCode ≠ Except.ok false := by
  refine ⟨rfl, ?_⟩
  intro h
  rw [show jobIsDone respRunningNoCode =
    Except.error (FermiErr.jsonOutOfRange "status_code") from rfl] at h
  exact Except.noConfusion h

/-- C1 (amended): for every status response carrying a string "status"
field and an integer "status_code" field, with the code read as a C++
`int` (the 32-bit two's-complement truncation of the response's number),
`jobIsDone` returns true when the status is "finished" and the truncated
code is 0, fails with the job-failed error carrying the truncated code when
the status is "finished" and it is nonzero, and returns false when the
status is not "finished". (A response lacking either field instead
surfaces a field-access error, since the source reads both fields before
branching; a code of 2^32 truncates to 0 and is reported done.) -/
theorem jobIsDone_spec (resp : Json) (s : String) (c : Int)
    (hs : resp.atField "status" = Except.ok (Json.str s))
    (hc : resp.atField "status_code" = Except.ok (Json.num c)) :
    jobIsDone resp =
      if s = "finished" then
        if wrapInt32 c = 0 then Except.ok true
        else Except.error (FermiErr.jobFailed (wrapInt32 c))
      else Except.ok false := by
  simp only [jobIsDone, hs, hc, Json.getStr, Json.getInt]

/-- C1 witness: a finished response with status code 0 is reported done,
and so is one with status code 4294967296 = 2^32, which the `int`
conversion truncates to 0. -/
theorem jobIsDone_spec_witness :
    jobIsDone respFinishedOk = Except.ok true ∧
    jobIsDone respFinishedWrap = Except.ok true := by
  constructor
  · have h := jobIsDone_spec respFinishedOk "finished" 0 rfl rfl
    simpa [wrapInt32] using h
  · have h := jobIsDone_spec respFinishedWrap "finished" 4294967296 rfl rfl
    simpa [wrapInt32] using h

/-  C2 -/

/-- C2: `processResults` is a stub. Even for a fully finished response that
`jobIsDone` accepts as done and that carries a result payload, it silently
returns the default-constructed empty sample result (and can never fail),
which is exactly what the claim says it never does. -/
theorem processResults_returns_empty_result :
    jobIsDone respFinishedWithOutput = Except.ok true ∧
    processResults respFinishedWithOutput "job-1" = SampleResult.empty ∧
    (processResults respFinishedWithOutput "job-1").counts = [] :=
  ⟨rfl, rfl, rfl⟩

/-  C7 -/

/-- C7: the polling path is not derivable from the submission response: the
response-shaped overload of `constructGetJobPath` drops the job identifier
(the source leaves "todo: Extract job-id from postResponse"), so the two
call shapes disagree on the very response the id was extracted from. -/
theorem constructGetJobPath_drops_job_id :
    extractJobId respWithId = Except.ok "job-1" ∧
    constructGetJobPathFromResponse pathState respWithId =
      Except.ok "https://h/api/jobs/" ∧
    constructGetJobPathFromId pathState "job-1" =
      Except.ok "https://h/api/jobs/job-1" ∧
    ("https://h/api/jobs/" : String) ≠ "https://h/api/jobs/job-1" := by
  refine ⟨rfl, rfl, rfl, ?_⟩
  decide

/-  C8 -/

/-- C8: `extractJobId` returns exactly the string value of the response's
"id" field when present, fails with the key-not-found error when the field
is absent, and any identifier it returns is literally the value of that
field — never a fabricated or empty fallback. -/
theorem extractJobId_reads_id_field (fields : List (String × Json)) :
    (∀ v, findField fields "id" = some (Json.str v) →
      extractJobId (Json.obj fields) = Except.ok v) ∧
    (findField fields "id" = none →
      extractJobId (Json.obj fields) =
        Except.error (FermiErr.jsonOutOfRange "id")) ∧
    (∀ s, extractJobId (Json.obj fields) = Except.ok s →
      findField fields "id" = some (Json.str s)) := by
  refine ⟨?_, ?_, ?_⟩
  · intro v hv
    simp [extractJobId, Json.atField, hv, Json.getStr]
  · intro h
    simp [extractJobId, Json.atField, h]
  · intro s hs
    cases hfind : findField fields "id" with
    | none => simp [extractJobId, Json.atField, hfind] at hs
    | some v =>
      cases v <;> simp [extractJobId, Json.atField, hfind, Json.getStr] at hs
      rw [hs]


/-- C8 witness: a response with "id" = "job-1" yields exactly "job-1". -/
theorem extractJobId_reads_id_field_witness :
    extractJobId respWithId = Except.ok "job-1" :=
  (extractJobId_reads_id_field [("id", Json.str "job-1")]).1 "job-1" rfl

/-  C9 -/

/-- C9: `name()` returns the same string under which the helper is
registered (`CUDAQ_REGISTER_TYPE`'s third argument), namely "fermioniq". -/
theorem name_matches_registry_key :
    helperName = registryKey ∧ registryKey = "fermioniq" := ⟨rfl, rfl⟩

/-  C3 -/

/-- C3 counterexample: the job body's "project_id" is a compiled-in
constant ("todo: remove. CudaQ dev" in the source), not pulled from
configuration: with "project_id" configured as "my-project", the submitted
job still carries the hard-coded id. -/
theorem createJob_projectId_hardcoded :
    mapFind projectState.backendConfig "project_id" = some "my-project" ∧
    firstJobField (createJob projectState exampleCircuits) "project_id" =
      Except.ok (Json.str "943977db-7264-4b66-addf-c9d6085d9d8f") ∧
    firstJobField (createJob projectState exampleCircuits) "project_id" ≠
      Except.ok (Json.str "my-project") := by
  refine ⟨rfl, rfl, ?_⟩
  intro h
  rw [show firstJobField (createJob projectState exampleCircuits) "project_id" =
    Except.ok (Json.str "943977db-7264-4b66-addf-c9d6085d9d8f") from rfl] at h
  injection h with h1
  injection h1 with h2
  exact absurd h2 (by decide)

/-- C3 (amended): for every list of N circuit executions, `createJob`
builds exactly one job request: a single (path, headers, body) triple whose
body is a one-element array holding one job object; that job's "circuit"
array has 2N entries (a marker plus the code of every one of the N
circuits), its "remote_config" equals the configured remote-config id
whenever one is configured, and its "project_id" is the compiled-in
constant rather than a configured value. -/
theorem createJob_single_request (st : HelperState) (ccs : List KernelExecution)
    (u : String) (hdrs : StrMap)
    (hu : mapAt st.backendConfig CFG_URL_KEY = Except.ok u)
    (hh : getHeaders st = Except.ok hdrs) :
    createJob st ccs =
      Except.ok (u ++ "/api/jobs", hdrs, Json.arr [jobBody st ccs]) ∧
    (circuitEntries ccs).length = 2 * ccs.length ∧
    (∀ c, c ∈ ccs → Json.str c.code ∈ circuitEntries ccs) ∧
    (∀ rc, mapFind st.backendConfig CFG_REMOTE_CONFIG_KEY = some rc →
      (jobBody st ccs).atField "remote_config" = Except.ok (Json.str rc)) ∧
    (jobBody st ccs).atField "project_id" =
      Except.ok (Json.str "943977db-7264-4b66-addf-c9d6085d9d8f") := by
  refine ⟨?_, circuitEntries_length ccs, fun c hc => circuitEntries_mem ccs c hc,
    ?_, ?_⟩
  · simp [createJob, hu, hh]
  · intro rc hrc
    simp [jobBody, hrc, Json.atField, findField]
  · cases hrc : mapFind st.backendConfig CFG_REMOTE_CONFIG_KEY <;>
      simp [jobBody, hrc, Json.atField, findField]

/-- C3 witness: two circuits submitted through the configured helper give
the single expected request triple. -/
theorem createJob_single_request_witness :
    createJob projectState exampleCircuits =
      Except.ok ("https://h/api/jobs",
        [("x-functions-key", "k"), ("Content-Type", "application/json"),
         ("User-Agent", "cudaq/0.0.0")],
        Json.arr [jobBody projectState exampleCircuits]) :=
  (createJob_single_request projectState exampleCircuits "https://h"
    [("x-functions-key", "k"), ("Content-Type", "application/json"),
     ("User-Agent", "cudaq/0.0.0")] rfl rfl).1

/-  C4 -/

/-- C4: the mutex guarding the login exchange is a local variable of
`refreshTokens`, so two concurrent invocations lock two distinct, freshly
constructed mutexes: the interleaving semantics reaches a state in which
both invocations hold their locks simultaneously (no mutual exclusion, two
refreshes in flight at once), and the completed run has issued two login
requests — not the exactly one the claim requires. -/
theorem refreshTokens_no_mutual_exclusion :
    Relation.ReflTransGen RefreshStep refreshInit
      { pc1 := 1, pc2 := 1, loginPosts := 0 } ∧
    (holdsLock 1 && holdsLock 1) = true ∧
    Relation.ReflTransGen RefreshStep refreshInit
      { pc1 := 3, pc2 := 3, loginPosts := 2 } ∧
    (2 : Nat) ≠ 1 := by
  refine ⟨?_, rfl, ?_, by decide⟩
  · exact Relation.ReflTransGen.head (RefreshStep.lock1 refreshInit rfl)
      (Relation.ReflTransGen.head (RefreshStep.lock2 _ rfl)
        Relation.ReflTransGen.refl)
  · exact Relation.ReflTransGen.head (RefreshStep.lock1 refreshInit rfl)
      (Relation.ReflTransGen.head (RefreshStep.lock2 _ rfl)
        (Relation.ReflTransGen.head (RefreshStep.post1 _ rfl)
          (Relation.ReflTransGen.head (RefreshStep.post2 _ rfl)
            (Relation.ReflTransGen.head (RefreshStep.ret1 _ rfl)
              (Relation.ReflTransGen.head (RefreshStep.ret2 _ rfl)
                Relation.ReflTransGen.refl)))))

/-  C5 -/

/-- C5 counterexample: with an old token held and a login response whose
"jwt_token" parses but which lacks "user_id", `refreshTokens` fails — but
the held token has already been overwritten with the new token, so the old
token is not preserved as the claim requires. -/
theorem refreshTokens_token_clobbered :
    (refreshTokens tokenState respNoUserId).2 = some FermiErr.jsonTypeError ∧
    tokenState.token = "old-token" ∧
    (refreshTokens tokenState respNoUserId).1.token = "new-token" ∧
    (refreshTokens tokenState respNoUserId).1.token ≠ tokenState.token := by
  exact ⟨rfl, rfl, rfl, by decide⟩

/-- C5 (amended): when the login response's token field fails to parse,
`refreshTokens` fails and leaves the previously held token unchanged; when
the token field parses but the user-id field fails to parse, it fails but
the held token has already been replaced by the token received in the
response (the member assignment precedes the failing read). -/
theorem refreshTokens_parse_failure (st : HelperState) (resp : Json)
    (hdrs : StrMap) (tid sec : String)
    (hh : getHeaders st = Except.ok hdrs)
    (hid : mapAt st.backendConfig CFG_ACCESS_TOKEN_ID_KEY = Except.ok tid)
    (hsec : mapAt st.backendConfig CFG_ACCESS_TOKEN_SECRET_KEY = Except.ok sec) :
    (∀ e, readStrField resp "jwt_token" = Except.error e →
      refreshTokens st resp = (st, some e)) ∧
    (∀ nt e, readStrField resp "jwt_token" = Except.ok nt →
      readStrField resp "user_id" = Except.error e →
      refreshTokens st resp = ({ st with token := nt }, some e)) := by
  constructor
  · intro e he
    simp [refreshTokens, hh, hid, hsec, he]
  · intro nt e hnt he
    simp [refreshTokens, hh, hid, hsec, hnt, he]

/-- C5 witness: an empty login response fails the token parse and leaves
the helper state (old token included) untouched. -/
theorem refreshTokens_parse_failure_witness :
    refreshTokens tokenState (Json.obj []) =
      (tokenState, some FermiErr.jsonTypeError) :=
  (refreshTokens_parse_failure tokenState (Json.obj [])
    [("x-functions-key", "k"), ("Authorization", "old-token"),
     ("Content-Type", "application/json"), ("User-Agent", "cudaq/0.0.0")]
    "tid" "sec" rfl rfl rfl).1 FermiErr.jsonTypeError rfl

/-  C6 -/

/-- C6: when a required access-token credential is resolvable neither from
the configuration map nor from the environment, initialization fails with
the error naming the missing environment key (and its message spells the
key out); it never proceeds with a silently defaulted value — `getEnvVar`
is called with `isRequired = true`, so its default is unreachable. -/
theorem initializeBackend_fails_closed (config env : StrMap) (loginResp : Json) :
    (mapFind config CFG_ACCESS_TOKEN_ID_KEY = none →
     mapFind env "FERMIONIQ_ACCESS_TOKEN_ID" = none →
     (initializeBackend config env loginResp).2 =
       some (FermiErr.envVarNotSet "FERMIONIQ_ACCESS_TOKEN_ID")) ∧
    (mapFind config CFG_ACCESS_TOKEN_SECRET_KEY = none →
     (∃ tid, mapFind env "FERMIONIQ_ACCESS_TOKEN_ID" = some tid) →
     mapFind env "FERMIONIQ_ACCESS_TOKEN_SECRET" = none →
     (initializeBackend config env loginResp).2 =
       some (FermiErr.envVarNotSet "FERMIONIQ_ACCESS_TOKEN_SECRET")) ∧
    errMessage (FermiErr.envVarNotSet "FERMIONIQ_ACCESS_TOKEN_ID") =
      "The FERMIONIQ_ACCESS_TOKEN_ID environment variable is not set but is required." ∧
    errMessage (FermiErr.envVarNotSet "FERMIONIQ_ACCESS_TOKEN_SECRET") =
      "The FERMIONIQ_ACCESS_TOKEN_SECRET environment variable is not set but is required." := by
  refine ⟨?_, ?_, rfl, rfl⟩
  · intro _hcfg henv
    simp [initializeBackend, getEnvVar, henv]
  · intro _hcfg hid henv
    obtain ⟨tid, hid⟩ := hid
    simp [initializeBackend, getEnvVar, hid, henv]

/-- C6 witness: with an empty configuration and empty environment,
initialization fails naming FERMIONIQ_ACCESS_TOKEN_ID. -/
theorem initializeBackend_fails_closed_witness :
    (initializeBackend [] [] Json.null).2 =
      some (FermiErr.envVarNotSet "FERMIONIQ_ACCESS_TOKEN_ID") :=
  (initializeBackend_fails_closed [] [] Json.null).1 rfl rfl

/-  C10 -/

/-- C10: when "base_url" or "api_key" is absent from the configuration map,
initialization does not fail on their account: with the required
environment variables present and a parsable login response it completes,
and the backend configuration holds the compiled-in production URL and the
compiled-in default API key. -/
theorem initializeBackend_defaults (config env : StrMap) (loginResp : Json)
    (tid sec nt uid ed : String)
    (hb : mapFind config "base_url" = none)
    (ha : mapFind config "api_key" = none)
    (h1 : mapFind env "FERMIONIQ_ACCESS_TOKEN_ID" = some tid)
    (h2 : mapFind env "FERMIONIQ_ACCESS_TOKEN_SECRET" = some sec)
    (h3 : readStrField loginResp "jwt_token" = Except.ok nt)
    (h4 : readStrField loginResp "user_id" = Except.ok uid)
    (h5 : readStrField loginResp "expiration_date" = Except.ok ed) :
    (initializeBackend config env loginResp).2 = none ∧
    mapFind (initializeBackend config env loginResp).1.backendConfig
      CFG_URL_KEY = some DEFAULT_URL ∧
    mapFind (initializeBackend config env loginResp).1.backendConfig
      CFG_API_KEY_KEY = some DEFAULT_API_KEY := by
  cases hrc : mapFind config "remote_config" <;>
    cases hnm : mapFind config "noise_model" <;>
      refine ⟨?_, ?_, ?_⟩ <;>
        simp [initializeBackend, getValueOrDefault, getEnvVar, refreshTokens,
          getHeaders, mapAt, mapFind, mapSet, hb, ha, h1, h2, hrc, hnm,
          h3, h4, h5, CFG_URL_KEY, CFG_API_KEY_KEY, CFG_ACCESS_TOKEN_ID_KEY,
          CFG_ACCESS_TOKEN_SECRET_KEY, CFG_USER_AGENT_KEY,
          CFG_REMOTE_CONFIG_KEY, CFG_NOISE_MODEL_KEY, DEFAULT_URL,
          DEFAULT_API_KEY]

/-- C10 witness: empty configuration plus a complete environment and a
well-formed login response initialize successfully with both compiled-in
defaults stored. -/
theorem initializeBackend_defaults_witness :
    (initializeBackend [] envBoth respLoginOk).2 = none ∧
    mapFind (initializeBackend [] envBoth respLoginOk).1.backendConfig
      CFG_URL_KEY = some DEFAULT_URL :=
  ⟨(initializeBackend_defaults [] envBoth respLoginOk "tid" "sec" "tok-1"
      "user-1" "2026-01-01" rfl rfl rfl rfl rfl rfl rfl).1,
   (initializeBackend_defaults [] envBoth respLoginOk "tid" "sec" "tok-1"
      "user-1" "2026-01-01" rfl rfl rfl rfl rfl rfl rfl).2.1⟩

end Fermioniq
